import Mathlib

/-!
Verification of the Crash Detective crash-finder core (`crash_finder.py`)
against its natural-language specification.

The Python source is shallowly embedded: pure string/path computations become
Lean functions, the Windows event-log reading loops become recursive functions
over explicit lists of batches of raw events, and the external collaborators
(the Win32 event-log API and `difflib.SequenceMatcher`) are modelled at their
interfaces: channels are values describing what the API would have returned
(batches of records, or a raised error), and the similarity metric is an
explicit function parameter `ratio : String → String → ℚ`, following the
spec's "pure function behind a narrow interface" design note.  Timestamps are
modelled as integers (second precision), Python floats' `> 0.6` comparison as
the exact rational comparison `> 3/5` (the two agree for every ratio value
`2*M/(len a + len b)` reachable from realistic string lengths).

Python string primitives (`in`, `.lower()`, `.split()`, `.replace()`,
slicing) are defined here directly over the character list of a `String`, so
that every definition evaluates inside the kernel.
-/

/-! ## String utilities (Python `in`, `.lower()`, `.split()`, `.replace()`) -/

/-- `leadEq n h` — does `h` start with `n` (character-wise)? -/
def leadEq : List Char → List Char → Bool
  | [], _ => true
  | _ :: _, [] => false
  | a :: as, b :: bs => a == b && leadEq as bs

/-- `subAt n h` — does `n` occur contiguously anywhere in `h`? -/
def subAt : List Char → List Char → Bool
  | n, [] => leadEq n []
  | n, h :: t => leadEq n (h :: t) || subAt n t

/-- Python's substring test `needle in hay`. -/
def hasSub (needle hay : String) : Bool := subAt needle.toList hay.toList

/-- Python's `str.lower()` (inputs here are ASCII). -/
def pyLower (s : String) : String := ⟨s.toList.map Char.toLower⟩

/-- Python's `str.replace('\\', '/')` — the only replacement the source does
is single-character, so it is character-wise. -/
def pyReplaceBS (s : String) : String :=
  ⟨s.toList.map (fun c => if c == '\\' then '/' else c)⟩

/-- Python's slicing `s[:n]`. -/
def pyTake (n : Nat) (s : String) : String := ⟨s.toList.take n⟩

/-- Split a character list at a separator predicate (groups between
separators, empty groups kept). -/
def splitChars (p : Char → Bool) : List Char → List (List Char)
  | [] => [[]]
  | c :: rest =>
    let r := splitChars p rest
    if p c then [] :: r
    else
      match r with
      | [] => [[c]]
      | g :: gs => (c :: g) :: gs

/-- Python's `str.split()` with no argument: split on whitespace, dropping
empty pieces. -/
def pySplit (s : String) : List String :=
  ((splitChars (fun c => c.isWhitespace) s.toList).map
    (fun cs => (⟨cs⟩ : String))).filter (fun w => w ≠ "")

/-- Python's `" | ".join(...)` — `joinSep sep pieces`. -/
def joinSep (sep : String) : List String → String
  | [] => ""
  | [s] => s
  | s :: rest => s ++ sep ++ joinSep sep rest

/-! ## Windows path model

`get_game_root_folder` only ever inspects path-segment strings (via
`os.path.dirname` / `os.path.basename` on the absolute path), so an absolute
Windows path is modelled as a drive prefix plus the list of its segments;
`os.path.abspath` on an already-absolute path is the normalisation performed
by parsing. -/

structure WPath where
  drive : String
  segs : List String
deriving DecidableEq, Repr

/-- Parse a forward-slash absolute path such as `"C:/Games/game.exe"`. -/
def parsePath (s : String) : WPath :=
  match (splitChars (fun c => c == '/') s.toList).map
      (fun cs => (⟨cs⟩ : String)) with
  | [] => ⟨"", []⟩
  | d :: rest => ⟨d, rest⟩

/-- `os.path.dirname` on an absolute Windows path: drop the last segment;
the drive root is its own dirname. -/
def pyDirname (p : WPath) : WPath := ⟨p.drive, p.segs.dropLast⟩

/-- `os.path.basename` on an absolute Windows path: the last segment, and
`""` at the drive root. -/
def pyBasename (p : WPath) : String := p.segs.getLastD ""

/-! ## GameRootResolver (`get_game_root_folder`, source lines 413-471) -/

/-- `BINARY_FOLDER_PATTERNS` from the source (lines 123-129). -/
def BINARY_FOLDER_PATTERNS : List String :=
  [ "bin", "binaries", "binary",
    "x64", "x86", "win64", "win32",
    "game", "build", "out", "output",
    "release", "debug", "shipping",
    "engine", "runtime", "launcher" ]

/-- `generic_folders` from the source (line 466). -/
def GENERIC_FOLDERS : List String :=
  ["games", "program files", "program files (x86)", "steam", "steamapps",
   "common", "users", ""]

/-- The `for pattern in BINARY_FOLDER_PATTERNS: if pattern in folder_name_lower`
loop: is any pattern a substring of the (lowercased) folder name? -/
def isBinaryFolder (folderNameLower : String) : Bool :=
  BINARY_FOLDER_PATTERNS.any (fun pat => hasSub pat folderNameLower)

/-- The `while levels_up < max_levels` ascent loop with fuel = remaining
ascents (`max_levels - levels_up`); `levels_up` increments only on ascent. -/
def ascendLoop : Nat → WPath → WPath
  | 0, current => current
  | n + 1, current =>
    if isBinaryFolder (pyLower (pyBasename current)) then
      let parent := pyDirname current
      if parent = current then current
      else ascendLoop n parent
    else current

/-- `get_game_root_folder(exe_path)` (source lines 413-471). -/
def get_game_root_folder (exePath : WPath) : WPath × String :=
  let exeDir := pyDirname exePath
  let root := ascendLoop 4 exeDir
  if pyLower (pyBasename root) ∈ GENERIC_FOLDERS then
    (exeDir, pyBasename exeDir)
  else
    (root, pyBasename root)

example :
    get_game_root_folder (parsePath "C:/Games/Stellar Blade/bin/sb.exe")
      = (parsePath "C:/Games/Stellar Blade", "Stellar Blade") := by decide


/-! ## CrashInterpreter (`CRASH_TRANSLATIONS` lines 134-307, `interpret_crash`
lines 739-764)

`CRASH_TRANSLATIONS` is a Python dict literal with distinct keys; a dict
preserves insertion order, so it is embedded as the ordered association
list of its entries. -/

def CRASH_TRANSLATIONS : List (String × String) :=
  [ ("0xc0000005", "ACCESS VIOLATION: Likely corrupted files or memory issue."),
    ("0xc0000374", "HEAP CORRUPTION: Internal game error."),
    ("0xc00000fd", "STACK OVERFLOW: Infinite loop or mod conflict."),
    ("0xc0000409", "STACK BUFFER OVERRUN: Game security or anti-cheat issue."),
    ("0xc0000008", "INVALID HANDLE: Corrupted files or driver conflict."),
    ("0xc0000017", "NO MEMORY: System ran out of memory, close other apps."),
    ("0xc000009a", "INSUFFICIENT RESOURCES: Not enough system resources."),
    ("0xc0000006", "IN-PAGE ERROR: Disk read failure, check your hard drive."),
    ("0xc000001d", "ILLEGAL INSTRUCTION: CPU incompatibility or corrupted game files."),
    ("0xc000001e", "INVALID LOCK SEQUENCE: Thread synchronization error."),
    ("0xc0000025", "NONCONTINUABLE EXCEPTION: Fatal error, cannot recover."),
    ("0xc0000026", "INVALID DISPOSITION: Bad exception handler, corrupted files."),
    ("0xc000008c", "ARRAY BOUNDS EXCEEDED: Memory overrun, verify game files."),
    ("0xc000008d", "FLOAT DENORMAL: Floating-point math error in application."),
    ("0xc000008e", "FLOAT DIVIDE BY ZERO: Math error, likely a game bug."),
    ("0xc000008f", "FLOAT INEXACT RESULT: Floating-point precision error."),
    ("0xc0000090", "FLOAT INVALID OPERATION: Invalid math operation in app."),
    ("0xc0000091", "FLOAT OVERFLOW: Number too large, possible game bug."),
    ("0xc0000092", "FLOAT STACK CHECK: Floating-point stack error."),
    ("0xc0000093", "FLOAT UNDERFLOW: Number too small, possible game bug."),
    ("0xc0000094", "INTEGER DIVIDE BY ZERO: Math error, verify game files."),
    ("0xc0000095", "INTEGER OVERFLOW: Number too large, possible game bug."),
    ("0xc0000096", "PRIVILEGED INSTRUCTION: App tried restricted CPU op."),
    ("0xc0000142", "DLL INIT FAILED: Missing Visual C++ Redistributable or corrupted DLLs."),
    ("0xc0000135", "DLL NOT FOUND: Missing runtime DLL, reinstall the app."),
    ("0xc000007b", "INVALID IMAGE: 32/64-bit mismatch or corrupted files."),
    ("0xc0000018", "CONFLICTING ADDRESSES: DLL load conflict, reinstall app."),
    ("0xc000012f", "BAD IMAGE: Corrupted executable or DLL file."),
    ("0xc0000020", "INVALID FILE FOR SECTION: Corrupted DLL or EXE file."),
    ("0xe0434352", ".NET CLR EXCEPTION: .NET app crash, repair/reinstall .NET."),
    ("0xe0434f4d", ".NET COM ERROR: .NET COM interop failure."),
    ("0xe06d7363", "C++ EXCEPTION: Unhandled Visual C++ exception thrown."),
    ("0x80000003", "BREAKPOINT: Debugger attached or anti-tamper triggered."),
    ("0x80000004", "SINGLE STEP: Debugging trace detected."),
    ("0x40000015", "FATAL APP EXIT: App called abort(), critical error."),
    ("0x40010006", "CTRL+C EXIT: App terminated by user or script."),
    ("0xc0000602", "UNKNOWN SOFTWARE EXCEPTION: Fail-fast or critical error."),
    ("0xc00000f0", "STATUS CANCELLED: Operation was cancelled unexpectedly."),
    ("0x40000016", "FATAL USER CALLBACK: C runtime callback error."),
    ("0xc0000417", "INVALID C RUNTIME PARAM: Bad parameter in C runtime call."),
    ("nvwgf", "GPU ERROR: Graphics driver crash (NVIDIA)."),
    ("nvlddmkm", "GPU ERROR: NVIDIA kernel driver crash, update drivers."),
    ("nvoglv", "GPU ERROR: NVIDIA OpenGL driver crash, update drivers."),
    ("nvd3dum", "GPU ERROR: NVIDIA Direct3D driver crash, update drivers."),
    ("nvcuda", "GPU ERROR: NVIDIA CUDA driver crash, update drivers."),
    ("atidxx", "GPU ERROR: AMD/ATI Direct3D driver crash, update drivers."),
    ("amdxc", "GPU ERROR: AMD DirectX driver crash, update drivers."),
    ("atioglxx", "GPU ERROR: AMD/ATI OpenGL driver crash, update drivers."),
    ("atig6pxx", "GPU ERROR: AMD graphics driver crash, update drivers."),
    ("amdkmdap", "GPU ERROR: AMD kernel driver crash, update drivers."),
    ("d3d11", "GPU ERROR: Graphics driver crash (Direct3D 11)."),
    ("d3d12", "GPU ERROR: Direct3D 12 crash, update GPU drivers."),
    ("d3d10", "GPU ERROR: Direct3D 10 crash, update GPU drivers."),
    ("d3d9", "GPU ERROR: Direct3D 9 crash, install legacy DirectX."),
    ("dxgi", "DirectX ERROR: Graphics API crash, update DirectX."),
    ("d3dcompiler", "DirectX ERROR: Shader compiler crash, update DirectX."),
    ("dxcore", "DirectX ERROR: DirectX core crash, update Windows."),
    ("igdumdim", "GPU ERROR: Intel graphics driver crash, update drivers."),
    ("igdkmd", "GPU ERROR: Intel kernel graphics crash, update drivers."),
    ("ig4icd", "GPU ERROR: Intel legacy GPU driver crash, update drivers."),
    ("ntdll.dll", "SYSTEM DLL: Low-level Windows crash, check for updates."),
    ("kernelbase.dll", "KERNEL ERROR: Windows API crash, update Windows."),
    ("kernel32.dll", "KERNEL ERROR: Core Windows crash, system needs update."),
    ("ucrtbase.dll", "C RUNTIME: Universal C Runtime crash, repair Visual C++."),
    ("msvcrt.dll", "C RUNTIME: Visual C++ runtime crash, reinstall VC++."),
    ("msvcr100.dll", "VC++ 2010 RUNTIME: Reinstall VC++ 2010 Redistributable."),
    ("msvcr110.dll", "VC++ 2012 RUNTIME: Reinstall VC++ 2012 Redistributable."),
    ("msvcr120.dll", "VC++ 2013 RUNTIME: Reinstall VC++ 2013 Redistributable."),
    ("msvcp140.dll", "VC++ 2015+ RUNTIME: Reinstall VC++ 2015-2022 Redist."),
    ("vcruntime140.dll", "VC++ RUNTIME: Reinstall VC++ 2015-2022 Redistributable."),
    ("concrt140.dll", "VC++ CONCURRENCY: Reinstall VC++ 2015-2022 Redist."),
    ("clr.dll", ".NET CLR CRASH: .NET Framework runtime error, repair .NET."),
    ("coreclr.dll", ".NET CORE CRASH: .NET Core/5+ runtime error."),
    ("clrjit.dll", ".NET JIT CRASH: .NET JIT compiler error, repair .NET."),
    ("mscorwks.dll", ".NET 2.0 CRASH: Old .NET Framework error, update .NET."),
    ("mscorlib", ".NET LIBRARY CRASH: .NET base library error."),
    ("wpfgfx", "WPF CRASH: .NET WPF graphics subsystem crash."),
    ("easyanticheat", "ANTI-CHEAT: EasyAntiCheat crash. Repair or reinstall."),
    ("eac_launcher", "ANTI-CHEAT: EasyAntiCheat launcher error, repair EAC."),
    ("battleye", "ANTI-CHEAT: BattlEye crash, verify game files."),
    ("beclient", "ANTI-CHEAT: BattlEye client crash, reinstall BattlEye."),
    ("beservice", "ANTI-CHEAT: BattlEye service crash, reinstall BattlEye."),
    ("bedaisy", "ANTI-CHEAT: BattlEye driver error, update Windows."),
    ("vanguard", "ANTI-CHEAT: Riot Vanguard crash, restart PC."),
    ("vgk.sys", "ANTI-CHEAT: Riot Vanguard kernel crash, reinstall."),
    ("eossdk", "EPIC SERVICES: Epic Online Services crash."),
    ("nprotect", "ANTI-CHEAT: nProtect GameGuard crash, reinstall game."),
    ("xigncode", "ANTI-CHEAT: XIGNCODE crash, verify game files."),
    ("denuvo", "DRM: Denuvo anti-tamper crash, verify game files."),
    ("steam_api", "STEAM API: Steam integration crash, verify game files."),
    ("steam_api64", "STEAM API: Steam integration crash, verify game files."),
    ("steamclient", "STEAM CLIENT: Steam client crash, restart Steam."),
    ("galaxydll", "GOG GALAXY: GOG Galaxy integration crash."),
    ("uplay_r", "UBISOFT CONNECT: Ubisoft DRM crash, relaunch client."),
    ("unity", "UNITY ENGINE: Game engine crash, verify game files."),
    ("unreal", "UNREAL ENGINE: Game engine crash, verify game files."),
    ("ue4", "UNREAL ENGINE: Game engine crash, verify game files."),
    ("ue5", "UNREAL ENGINE 5: Game engine crash, verify game files."),
    ("cryengine", "CRYENGINE: Game engine crash, verify game files."),
    ("frostbite", "FROSTBITE ENGINE: Game engine crash, verify files."),
    ("gameoverlayrenderer", "STEAM OVERLAY: Steam overlay crash, disable overlay."),
    ("renderdoc", "RENDERDOC: Graphics debugger conflict, close RenderDoc."),
    ("xaudio2", "AUDIO ERROR: XAudio2 crash, reinstall DirectX."),
    ("dsound.dll", "AUDIO ERROR: DirectSound crash, check audio drivers."),
    ("wwise", "AUDIO ENGINE: Wwise audio engine crash."),
    ("fmod", "AUDIO ENGINE: FMOD audio engine crash."),
    ("ws2_32.dll", "NETWORK ERROR: Winsock crash, check network drivers."),
    ("winhttp.dll", "NETWORK ERROR: HTTP connection crash, check network."),
    ("mswsock.dll", "NETWORK ERROR: Windows socket provider crash.") ]

/-- `interpret_crash(log_message)` (source lines 739-764): lowercase the
message, collect the translation of every pattern found as a substring, in
table order; the sentinel is returned for an empty message or when no
pattern matches. -/
def interpret_crash (log_message : String) : List String :=
  if log_message = "" then ["No specific error pattern detected."]
  else
    let message_lower := pyLower log_message
    let translations := CRASH_TRANSLATIONS.foldl
      (fun acc pt => if hasSub (pyLower pt.1) message_lower then acc ++ [pt.2] else acc)
      []
    if translations = [] then ["No specific error pattern detected."]
    else translations

example :
    interpret_crash "benign text" = ["No specific error pattern detected."] := by decide

example :
    interpret_crash "... 0xC0000005 ... nvlddmkm ..." =
      ["ACCESS VIOLATION: Likely corrupted files or memory issue.",
       "GPU ERROR: NVIDIA kernel driver crash, update drivers."] := by decide


/-! ## Event-log records (LogChannelReader data model)

A raw record as exposed by the Win32 event-log API (section 6 of the spec):
generation time (seconds precision, an integer here), type code, raw event
identifier, source name (`""` models a missing/falsy `SourceName`), the
ordered insert strings, and the optional binary payload.  Payload decoding
in the source is `decode('utf-8', errors='ignore')` — best-effort and never
failing — so the payload is modelled as its decoded text. -/

structure RawEvent where
  time : Int
  eventType : Nat
  eventID : Nat
  sourceName : String
  stringInserts : List String
  data : Option String
deriving DecidableEq, Repr

/-- `win32con.EVENTLOG_ERROR_TYPE`. -/
def EVENTLOG_ERROR_TYPE : Nat := 1

/-- `APPLICATION_ERROR_EVENT_IDS` (source line 119). -/
def APPLICATION_ERROR_EVENT_IDS : List Nat := [1000, 1001, 1002]

/-- `message = " | ".join([str(s) for s in event.StringInserts if s])`
(empty inserts are dropped; a missing `StringInserts` is the empty list). -/
def eventMessage (e : RawEvent) : String :=
  joinSep " | " (e.stringInserts.filter (fun s => s ≠ ""))

/-- `raw_data = event.Data.decode('utf-8', errors='ignore')` when `Data` is
present, else `""`. -/
def eventRaw (e : RawEvent) : String := e.data.getD ""

/-- `event.SourceName or "Unknown"`. -/
def eventSource (e : RawEvent) : String :=
  if e.sourceName = "" then "Unknown" else e.sourceName

/-- A processed log entry, the dict built by `read_application_logs`
(source lines 561-567). -/
structure LogEntry where
  timestamp : Int
  source : String
  event_id : Nat
  message : String
  raw_data : String
deriving DecidableEq, Repr

def mkLogEntry (e : RawEvent) : LogEntry :=
  ⟨e.time, eventSource e, e.eventID % 65536, eventMessage e, eventRaw e⟩

/-- The severity and masked-event-ID filter of the targeted read
(source lines 537-545). -/
def appAccept (e : RawEvent) : Bool :=
  e.eventType == EVENTLOG_ERROR_TYPE
    && APPLICATION_ERROR_EVENT_IDS.contains (e.eventID % 65536)

/-- The entries the targeted read produces from a run of events none of
which is older than the threshold. -/
def appEntries (events : List RawEvent) : List LogEntry :=
  events.filterMap (fun e => if appAccept e then some (mkLogEntry e) else none)

/-! ## `read_application_logs` (source lines 478-589)

The reader is modelled on its success path: the OS hands back batches of
events (newest first); the loop ends at an empty batch.  The inner
`for event in events` loop returns the accumulated entries plus the
`past-threshold` flag: the first event strictly older than the threshold is
dropped and breaks the batch, and the trailing
`if events and event_time < time_threshold: break` then ends the whole read
(the flag is set exactly when the inner break fired). -/

def readAppBatch (t : Int) : List RawEvent → List LogEntry → List LogEntry × Bool
  | [], logs => (logs, false)
  | e :: rest, logs =>
    if e.time < t then (logs, true)
    else if appAccept e then readAppBatch t rest (logs ++ [mkLogEntry e])
    else readAppBatch t rest logs

def readAppLoop (t : Int) : List (List RawEvent) → List LogEntry → List LogEntry
  | [], logs => logs
  | b :: bs, logs =>
    if b = [] then logs
    else
      let r := readAppBatch t b logs
      if r.2 then r.1 else readAppLoop t bs r.1

/-- `read_application_logs(days)` with the time threshold already computed
and the OS read modelled as the list of batches it would return. -/
def read_application_logs (t : Int) (batches : List (List RawEvent)) : List LogEntry :=
  readAppLoop t batches []

example :
    read_application_logs 10
      [[⟨12, 1, 1000, "App", ["a.exe"], none⟩,
        ⟨11, 2, 1000, "Info", ["skip"], none⟩,
        ⟨10, 1, 66537, "App", ["b.exe"], some "xyz"⟩],
       [⟨9, 1, 1000, "Old", ["dropped"], none⟩,
        ⟨8, 1, 1000, "Older", ["dropped"], none⟩]] =
      [⟨12, "App", 1000, "a.exe", ""⟩, ⟨10, "App", 1001, "b.exe", "xyz"⟩] := by decide

/-! ## `read_general_logs` (source lines 592-732)

The fallback sweep walks `["Application", "System"]` in order, accumulating
into one `logs` list capped at `max_results = 10`.  Exceptions from the
Win32 API are modelled in the channel value: `openRaise e` — opening the
channel raised `e`; `openNone` — `OpenEventLog` returned a falsy handle
(the `if not hand: continue` branch); `okChan batches readEnd` — the reads
return `batches` in order, and afterwards — only if the loop is still
asking for more — the next read raises `readEnd` (or returns the empty
batch that ends the loop normally when `readEnd = none`). -/

inductive PyErr
  | permission
  | winErr (code : Int) (msg : String)
  | exc (msg : String)
deriving DecidableEq, Repr

/-- `PermissionError`, or `pywintypes.error` with code 5. -/
def isAccessDenied : PyErr → Bool
  | .permission => true
  | .winErr c _ => c == 5
  | .exc _ => false

inductive Channel
  | openRaise (e : PyErr)
  | openNone
  | okChan (batches : List (List RawEvent)) (readEnd : Option PyErr)
deriving DecidableEq, Repr

/-- The error strings of the `except` arms of `read_general_logs`
(source lines 717-730), and whether the arm breaks the whole sweep. -/
def accessDeniedMsg : String := "❌ Access denied. Please run as Administrator."

def channelFailure (logName : String) : PyErr → String × Bool
  | .permission => (accessDeniedMsg, true)
  | .winErr c m =>
    if c == 5 then (accessDeniedMsg, true)
    else ("❌ Windows Error reading " ++ logName ++ " log: " ++ m, false)
  | .exc m => ("❌ Error reading " ++ logName ++ " Event Log: " ++ m, false)

/-- The free-text search terms of the sweep (source lines 616-617). -/
structure GenSearch where
  folder_lower : String
  root_normalized : String
deriving DecidableEq, Repr

def mkGenSearch (game_folder_name game_root_path : String) : GenSearch :=
  ⟨pyLower game_folder_name, pyLower (pyReplaceBS game_root_path)⟩

/-- The `is_related` check (source lines 683-688): folder name in the
lowercased message, or normalized root path in the normalized message. -/
def genRelated (c : GenSearch) (e : RawEvent) : Bool :=
  let message_lower := pyLower (eventMessage e)
  let message_normalized := pyReplaceBS message_lower
  (decide (3 < c.folder_lower.length) && hasSub c.folder_lower message_lower)
    || (decide (10 < c.root_normalized.length)
          && hasSub c.root_normalized message_normalized)

/-- A general-sweep entry (source lines 701-708): a `LogEntry` plus the
channel it came from. -/
structure GenEntry where
  timestamp : Int
  source : String
  event_id : Nat
  message : String
  raw_data : String
  log_source_name : String
deriving DecidableEq, Repr

def mkGenEntry (logName : String) (e : RawEvent) : GenEntry :=
  ⟨e.time, eventSource e, e.eventID % 65536, eventMessage e, eventRaw e, logName⟩

def max_results : Nat := 10

/-- The inner `for event in events` loop of the sweep (source lines
644-709): quota check first, then the time cutoff (sets `past_threshold`
and breaks), then severity and relatedness. -/
def readGenBatch (t : Int) (c : GenSearch) (logName : String) :
    List RawEvent → List GenEntry → List GenEntry × Bool
  | [], logs => (logs, false)
  | e :: rest, logs =>
    if max_results ≤ logs.length then (logs, false)
    else if e.time < t then (logs, true)
    else if e.eventType ≠ EVENTLOG_ERROR_TYPE then readGenBatch t c logName rest logs
    else if genRelated c e then readGenBatch t c logName rest (logs ++ [mkGenEntry logName e])
    else readGenBatch t c logName rest logs

/-- The `while True` read loop of one channel (source lines 634-712).
Second component: the loop ran out of the provided batches while still
asking for more (so a terminal read error, if any, would be raised). -/
def readGenChannel (t : Int) (c : GenSearch) (logName : String) :
    List (List RawEvent) → List GenEntry → List GenEntry × Bool
  | [], logs => if max_results ≤ logs.length then (logs, false) else (logs, true)
  | b :: bs, logs =>
    if max_results ≤ logs.length then (logs, false)
    else if b = [] then (logs, false)
    else
      let r := readGenBatch t c logName b logs
      if r.2 then (r.1, false) else readGenChannel t c logName bs r.1

/-- Process one channel of the sweep, yielding the grown `logs`, the error
message the `except` arm would record, and whether that arm breaks the
whole sweep. -/
def stepChannel (t : Int) (c : GenSearch) (logName : String) (ch : Channel)
    (logs : List GenEntry) : List GenEntry × Option String × Bool :=
  match ch with
  | .openRaise e =>
    let f := channelFailure logName e
    (logs, some f.1, f.2)
  | .openNone => (logs, none, false)
  | .okChan batches readEnd =>
    let r := readGenChannel t c logName batches logs
    if r.2 then
      match readEnd with
      | some e =>
        let f := channelFailure logName e
        (r.1, some f.1, f.2)
      | none => (r.1, none, false)
    else (r.1, none, false)

/-- The `for log_name in log_names` loop (source lines 621-730): quota
check at the top, then the channel body; a later error message overwrites
an earlier one, and a breaking arm ends the sweep. -/
def sweepLogs (t : Int) (c : GenSearch) :
    List (String × Channel) → List GenEntry → Option String →
      List GenEntry × Option String
  | [], logs, err => (logs, err)
  | (logName, ch) :: rest, logs, err =>
    if max_results ≤ logs.length then (logs, err)
    else
      let s := stepChannel t c logName ch logs
      let err' := match s.2.1 with | some m => some m | none => err
      if s.2.2 then (s.1, err')
      else sweepLogs t c rest s.1 err'

/-- `read_general_logs(days, game_folder_name, game_root_path)` with the
time threshold already computed and the two OS channels modelled as
values. -/
def read_general_logs (t : Int) (game_folder_name game_root_path : String)
    (app sys : Channel) : List GenEntry × Option String :=
  sweepLogs t (mkGenSearch game_folder_name game_root_path)
    [("Application", app), ("System", sys)] [] none

example :
    read_general_logs 0 "MyGame" "C:/Games/MyGame"
      (.okChan [[⟨5, 1, 7034, "SCM", ["MyGame service died"], none⟩]] none)
      (.okChan [[⟨4, 1, 41, "Kernel", ["c:\\games\\mygame\\g.exe fault"], none⟩]] none) =
      ([⟨5, "SCM", 7034, "MyGame service died", "", "Application"⟩,
        ⟨4, "Kernel", 41, "c:\\games\\mygame\\g.exe fault", "", "System"⟩], none) := by decide

example :
    read_general_logs 0 "MyGame" "C:/Games/MyGame"
      (.openRaise .permission)
      (.okChan [[⟨4, 1, 41, "Kernel", ["MyGame fault"], none⟩]] none) =
      ([], some accessDeniedMsg) := by decide

/-! ## MatchEngine — the primary matching pass of `_handle_search`
(source lines 991-1043)

The six ordered heuristics, stop at first success.  The `match_reason`
string the source attaches records which tier fired (plus a formatted
percentage for the fuzzy tiers); the tier itself is what the spec's
`MatchResult.tier` models, so the result is an `Option MatchTier`.
`ratio` is `difflib.SequenceMatcher(None, a, b).ratio()` behind the spec's
narrow similarity interface, as an exact rational. -/

inductive MatchTier
  | exactName
  | exactNameNoExt
  | fuzzySource
  | folderName
  | pathMatch
  | fuzzyWord
deriving DecidableEq, Repr

/-- The `for word in words` loop (source lines 1032-1039): first token
longer than 3 characters whose similarity to the extension-less name
strictly exceeds 0.6 wins. -/
def firstFuzzyWord (ratio : String → String → ℚ) (exe_name_no_ext : String) :
    List String → Bool
  | [] => false
  | w :: ws =>
    if 3 < w.length then
      if ratio exe_name_no_ext w > 3/5 then true
      else firstFuzzyWord ratio exe_name_no_ext ws
    else firstFuzzyWord ratio exe_name_no_ext ws

/-- The tier cascade applied to one record (source lines 999-1039), over
the lowercased search strings `_handle_search` precomputes:
`exe_name_lower`, `exe_name_no_ext`, `game_folder_lower`,
`game_root_normalized`. -/
def computeMatch (ratio : String → String → ℚ)
    (exe_name_lower exe_name_no_ext game_folder_lower game_root_normalized : String)
    (log : LogEntry) : Option MatchTier :=
  if hasSub exe_name_lower (pyLower log.source)
      || hasSub exe_name_lower (pyLower log.message) then
    some .exactName
  else if hasSub exe_name_no_ext (pyLower log.source)
      || hasSub exe_name_no_ext (pyLower log.message) then
    some .exactNameNoExt
  else if ratio exe_name_no_ext (pyLower log.source) > 3/5 then
    some .fuzzySource
  else if decide (3 < game_folder_lower.length)
      && hasSub game_folder_lower (pyLower log.message) then
    some .folderName
  else if decide (10 < game_root_normalized.length)
      && hasSub game_root_normalized (pyReplaceBS (pyLower log.message)) then
    some .pathMatch
  else if firstFuzzyWord ratio exe_name_no_ext (pySplit (pyLower log.message)) then
    some .fuzzyWord
  else
    none

/-- The `for log in logs` filtering loop (source lines 991-1043):
matched records are appended, in scan order, paired with their reason. -/
def filterMatchingLogs (ratio : String → String → ℚ)
    (enl ene gfl grn : String) (logs : List LogEntry) :
    List (LogEntry × MatchTier) :=
  logs.foldl
    (fun acc log =>
      match computeMatch ratio enl ene gfl grn log with
      | some tier => acc ++ [(log, tier)]
      | none => acc)
    []

/-! ## ReportAssembler — the displayed-text computations of `_handle_search`

`primaryDisplayedMessage` is the `message` local of the primary-pass
rendering loop (source lines 1100-1102), `generalDisplayedMessage` the one
of the general-sweep rendering loop (source lines 1064-1066), and
`primaryDisplayedRaw` the raw-data text of source line 1145. -/

def primaryDisplayedMessage (log : LogEntry) : String :=
  if log.message.length > 800 then pyTake 800 log.message ++ "..." else log.message

def generalDisplayedMessage (log : GenEntry) : String :=
  if log.message.length > 500 then pyTake 500 log.message ++ "..." else log.message

def primaryDisplayedRaw (log : LogEntry) : String :=
  if log.raw_data.length > 100 then pyTake 100 log.raw_data ++ "..." else log.raw_data

/-- Truncation as the spec words it: "truncated at `limit` characters with
an ellipsis marker when longer". -/
def specTruncate (limit : Nat) (s : String) : String :=
  if s.length > limit then pyTake limit s ++ "..." else s

/-! ## Shared helper lemmas -/

/-- The accumulating fold of the primary filtering loop equals
`filterMap`. -/
theorem filterMatchingLogs_eq_filterMap (ratio : String → String → ℚ)
    (enl ene gfl grn : String) (logs : List LogEntry) :
    filterMatchingLogs ratio enl ene gfl grn logs
      = logs.filterMap
          (fun log => (computeMatch ratio enl ene gfl grn log).map (fun t => (log, t))) := by
  have h : ∀ (logs : List LogEntry) (acc : List (LogEntry × MatchTier)),
      List.foldl
          (fun acc log =>
            match computeMatch ratio enl ene gfl grn log with
            | some tier => acc ++ [(log, tier)]
            | none => acc)
          acc logs
        = acc ++ logs.filterMap
            (fun log => (computeMatch ratio enl ene gfl grn log).map (fun t => (log, t))) := by
    intro logs
    induction logs with
    | nil => intro acc; simp
    | cons l ls ih =>
      intro acc
      cases hm : computeMatch ratio enl ene gfl grn l <;>
        simp [List.foldl_cons, hm, ih, List.filterMap_cons]
  simpa using h logs []

/-- Accumulating fold of the interpreter loop equals `filter`-then-`map`. -/
theorem foldl_ifCollect {α β : Type} (p : α → Bool) (g : α → β) :
    ∀ (l : List α) (acc : List β),
      l.foldl (fun acc a => if p a then acc ++ [g a] else acc) acc
        = acc ++ (l.filter p).map g := by
  intro l
  induction l with
  | nil => intro acc; simp
  | cons a l ih =>
    intro acc
    by_cases h : p a <;> simp [List.foldl_cons, h, ih, List.filter_cons]

/-! ## Claim theorems -/

/-- Claim C1 (status: code bug) — evaluation of the root resolver at the
claimed input.  The claim (and the function's own docstring, whose second
example is the analogous `C:/Games/Game/Binaries/Win64/game.exe -> "Game"`)
expects the ascent to stop at `MyGame`; but `BINARY_FOLDER_PATTERNS`
contains `"game"` and is matched by substring, so `mygame` and `games`
also count as binary folders, the ascent overshoots to the drive root, and
the generic-folder fallback returns the executable's original directory
`("C:/Games/MyGame/Binaries/Win64", "Win64")` instead of
`("C:/Games/MyGame", "MyGame")`. -/
theorem c1_game_root_resolver_eval :
    get_game_root_folder (parsePath "C:/Games/MyGame/Binaries/Win64/game.exe")
      = (parsePath "C:/Games/MyGame/Binaries/Win64", "Win64") := by decide

/-- Claim C9 (confirmed): on `"C:/Games/game.exe"` the resolver returns the
executable's original containing directory `("C:/Games", "Games")` via the
generic-container fallback (the ascent reaches the drive root, whose empty
basename is in the generic list, so the exe directory is returned
unchanged). -/
theorem c9_game_root_generic_fallback :
    get_game_root_folder (parsePath "C:/Games/game.exe")
      = (parsePath "C:/Games", "Games") := by decide

/-- Claim C2 (confirmed): whenever the lowercased source or message
contains the executable's lowercase filename-with-extension as a
substring, the primary pass classifies the record as the exact-name tier
("exe name match"), regardless of the similarity metric and of any later
tier — the cascade checks this tier first and stops at the first
success. -/
theorem c2_exact_name_tier_first
    (ratio : String → String → ℚ) (enl ene gfl grn : String) (log : LogEntry)
    (h : hasSub enl (pyLower log.source) = true ∨ hasSub enl (pyLower log.message) = true) :
    computeMatch ratio enl ene gfl grn log = some .exactName := by
  unfold computeMatch
  rcases h with h | h <;> simp [h]

theorem c2_exact_name_tier_first_witness :
    (hasSub "game.exe" (pyLower "Faulting application name: GAME.EXE") = true ∨
      hasSub "game.exe" (pyLower "Faulting application name: GAME.EXE") = true) ∧
    computeMatch (fun _ _ => 1) "game.exe" "game" "mygame" "c:/games/mygame"
      ⟨0, "Application Error", 1000, "Faulting application name: GAME.EXE", ""⟩
      = some .exactName :=
  ⟨Or.inr (by decide),
   c2_exact_name_tier_first (fun _ _ => 1) "game.exe" "game" "mygame" "c:/games/mygame"
     ⟨0, "Application Error", 1000, "Faulting application name: GAME.EXE", ""⟩
     (Or.inr (by decide))⟩

/-- Claim C10 (confirmed): the primary matching pass is an order-preserving
filter — the records of its output form a sublist (subsequence) of the
input record list, each paired, unchanged, with its match tier. -/
theorem c10_primary_pass_sublist
    (ratio : String → String → ℚ) (enl ene gfl grn : String) (logs : List LogEntry) :
    ((filterMatchingLogs ratio enl ene gfl grn logs).map Prod.fst).Sublist logs := by
  rw [filterMatchingLogs_eq_filterMap]
  induction logs with
  | nil => simp
  | cons l ls ih =>
    rw [List.filterMap_cons]
    cases h : computeMatch ratio enl ene gfl grn l with
    | none => simpa [Option.map_none] using ih.cons l
    | some t => simpa [Option.map_some] using ih.cons₂ l

/-- Claim C7 (corrected) — counterexample to "duplicate explanation strings
collapsed when exactly identical": a text containing `steam_api64`
matches both the `steam_api` and `steam_api64` patterns, whose
explanations are the same exact string, and the interpreter returns that
explanation twice, not once. -/
theorem c7_no_dedup_counterexample :
    interpret_crash "steam_api64" =
      ["STEAM API: Steam integration crash, verify game files.",
       "STEAM API: Steam integration crash, verify game files."] ∧
    interpret_crash "steam_api64" ≠
      ["STEAM API: Steam integration crash, verify game files."] :=
  ⟨by decide, by decide⟩

/-- Claim C7 (amended): the interpreter returns the explanation of every
signature-table pattern occurring as a substring of the lowercased text,
in table order, one occurrence per matching pattern with no deduplication
at all (identical explanations of distinct matching patterns repeat); the
sentinel is returned exactly when the text is empty or no pattern
matches. -/
theorem c7_interpret_all_patterns (text : String) :
    interpret_crash text =
      if text = "" then ["No specific error pattern detected."]
      else if (CRASH_TRANSLATIONS.filter
          (fun pt => hasSub (pyLower pt.1) (pyLower text))).map Prod.snd = [] then
        ["No specific error pattern detected."]
      else
        (CRASH_TRANSLATIONS.filter
          (fun pt => hasSub (pyLower pt.1) (pyLower text))).map Prod.snd := by
  unfold interpret_crash
  by_cases h : text = ""
  · simp [h]
  · simp only [h, if_false]
    rw [foldl_ifCollect (fun pt => hasSub (pyLower pt.1) (pyLower text)) Prod.snd]
    simp

set_option maxRecDepth 8000 in
/-- Claim C8 (corrected) — counterexample to "for every record rendered in
the report the displayed message text is truncated at 800 characters":
a fallback general-sweep record whose message has 501 characters is
displayed truncated at 500 with an ellipsis, not left whole as the
800-character rule would. -/
theorem c8_truncation_counterexample :
    generalDisplayedMessage
        ⟨0, "Source", 0, (⟨List.replicate 501 'a'⟩ : String), "", "Application"⟩
      ≠ specTruncate 800 (⟨List.replicate 501 'a'⟩ : String) := by decide

/-- Claim C8 (amended): primary-pass records display the message truncated
at 800 characters with an ellipsis and the raw payload truncated at 100
characters with an ellipsis; fallback general-sweep records display the
message truncated at 500 characters with an ellipsis (and no raw
payload). -/
theorem c8_display_truncation (log : LogEntry) (g : GenEntry) :
    primaryDisplayedMessage log = specTruncate 800 log.message ∧
    generalDisplayedMessage g = specTruncate 500 g.message ∧
    primaryDisplayedRaw log = specTruncate 100 log.raw_data :=
  ⟨rfl, rfl, rfl⟩

/-- The word-scan loop succeeds exactly when some token longer than 3
characters has similarity strictly above 3/5. -/
theorem firstFuzzyWord_iff (ratio : String → String → ℚ) (ene : String) :
    ∀ ws : List String, firstFuzzyWord ratio ene ws = true ↔
      ∃ w ∈ ws, 3 < w.length ∧ ratio ene w > 3/5 := by
  intro ws
  induction ws with
  | nil => simp [firstFuzzyWord]
  | cons w ws ih =>
    by_cases hl : 3 < w.length
    · by_cases hr : ratio ene w > 3/5
      · simp [firstFuzzyWord, hl, hr]
      · simp [firstFuzzyWord, hl, hr, ih]
    · simp [firstFuzzyWord, hl, ih]

/-- Claim C3 (confirmed): the fuzzy threshold is strict.  A similarity of
exactly `3/5` between the extension-less executable name and the source
never yields the fuzzy-source tier, and one of exactly `3/5` on every long
message token never yields the fuzzy-word tier; a similarity strictly
above `3/5` yields the fuzzy-source tier (when the exact tiers failed),
and a long token strictly above `3/5` yields the fuzzy-word tier (when
all earlier tiers failed); with every similarity at exactly `3/5` and all
other tiers failing, the record does not match at all. -/
theorem c3_fuzzy_threshold_strict (ratio : String → String → ℚ)
    (enl ene gfl grn : String) (log : LogEntry) :
    (ratio ene (pyLower log.source) = 3/5 →
      computeMatch ratio enl ene gfl grn log ≠ some .fuzzySource)
    ∧ ((hasSub enl (pyLower log.source) || hasSub enl (pyLower log.message)) = false →
       (hasSub ene (pyLower log.source) || hasSub ene (pyLower log.message)) = false →
       ratio ene (pyLower log.source) > 3/5 →
       computeMatch ratio enl ene gfl grn log = some .fuzzySource)
    ∧ ((∀ w ∈ pySplit (pyLower log.message), 3 < w.length → ¬ ratio ene w > 3/5) →
       computeMatch ratio enl ene gfl grn log ≠ some .fuzzyWord)
    ∧ ((hasSub enl (pyLower log.source) || hasSub enl (pyLower log.message)) = false →
       (hasSub ene (pyLower log.source) || hasSub ene (pyLower log.message)) = false →
       ¬ ratio ene (pyLower log.source) > 3/5 →
       (decide (3 < gfl.length) && hasSub gfl (pyLower log.message)) = false →
       (decide (10 < grn.length) && hasSub grn (pyReplaceBS (pyLower log.message))) = false →
       (∃ w ∈ pySplit (pyLower log.message), 3 < w.length ∧ ratio ene w > 3/5) →
       computeMatch ratio enl ene gfl grn log = some .fuzzyWord)
    ∧ ((hasSub enl (pyLower log.source) || hasSub enl (pyLower log.message)) = false →
       (hasSub ene (pyLower log.source) || hasSub ene (pyLower log.message)) = false →
       ratio ene (pyLower log.source) = 3/5 →
       (decide (3 < gfl.length) && hasSub gfl (pyLower log.message)) = false →
       (decide (10 < grn.length) && hasSub grn (pyReplaceBS (pyLower log.message))) = false →
       (∀ w ∈ pySplit (pyLower log.message), 3 < w.length → ratio ene w ≤ 3/5) →
       computeMatch ratio enl ene gfl grn log = none) := by
  refine ⟨?_, ?_, ?_, ?_, ?_⟩
  · intro h
    have hns : ¬ ratio ene (pyLower log.source) > 3/5 := by
      rw [h]; exact lt_irrefl _
    unfold computeMatch
    split_ifs <;> simp_all
  · intro h1 h2 h3
    unfold computeMatch
    simp [h1, h2, h3]
  · intro hall
    unfold computeMatch
    split_ifs with h1 h2 h3 h4 h5 h6
    · simp
    · simp
    · simp
    · simp
    · simp
    · exfalso
      obtain ⟨w, hw, hlen, hr⟩ := (firstFuzzyWord_iff ratio ene _).mp h6
      exact hall w hw hlen hr
    · simp
  · intro h1 h2 h3 h4 h5 hex
    have h6 : firstFuzzyWord ratio ene (pySplit (pyLower log.message)) = true :=
      (firstFuzzyWord_iff ratio ene _).mpr hex
    unfold computeMatch
    simp [h1, h2, h3, h4, h5, h6]
  · intro h1 h2 h3 h4 h5 hall
    have hns : ¬ ratio ene (pyLower log.source) > 3/5 := by
      rw [h3]; exact lt_irrefl _
    have h6 : firstFuzzyWord ratio ene (pySplit (pyLower log.message)) = false := by
      cases hfb : firstFuzzyWord ratio ene (pySplit (pyLower log.message)) with
      | false => rfl
      | true =>
        obtain ⟨w, hw, hlen, hr⟩ := (firstFuzzyWord_iff ratio ene _).mp hfb
        exact absurd hr (not_lt.mpr (hall w hw hlen))
    unfold computeMatch
    simp [h1, h2, hns, h4, h5, h6]

theorem c3_fuzzy_threshold_strict_witness :
    computeMatch (fun _ _ => 61/100)
        "qqqq.exe" "qqqq" "xx" "yy" ⟨0, "abcd", 1000, "nothing here", ""⟩
      = some .fuzzySource ∧
    computeMatch (fun _ _ => 3/5)
        "qqqq.exe" "qqqq" "xx" "yy" ⟨0, "wxyz", 1000, "wxyz stuff", ""⟩
      = none :=
  ⟨(c3_fuzzy_threshold_strict (fun _ _ => 61/100)
        "qqqq.exe" "qqqq" "xx" "yy" ⟨0, "abcd", 1000, "nothing here", ""⟩).2.1
      (by decide) (by decide) (by norm_num),
   (c3_fuzzy_threshold_strict (fun _ _ => 3/5)
        "qqqq.exe" "qqqq" "xx" "yy" ⟨0, "wxyz", 1000, "wxyz stuff", ""⟩).2.2.2.2
      (by decide) (by decide) rfl (by decide) (by decide)
      (fun _ _ _ => le_refl _)⟩

/-- A batch none of whose events is older than the threshold is processed
to the end: the eligible entries are appended, and the past-threshold flag
stays off. -/
theorem readAppBatch_fresh (t : Int) :
    ∀ (es : List RawEvent) (logs : List LogEntry),
      (∀ e ∈ es, ¬ e.time < t) →
      readAppBatch t es logs = (logs ++ appEntries es, false) := by
  intro es
  induction es with
  | nil => intro logs _; simp [readAppBatch, appEntries]
  | cons e rest ih =>
    intro logs hall
    have he : ¬ e.time < t := hall e (by simp)
    have hrest : ∀ x ∈ rest, ¬ x.time < t := fun x hx => hall x (by simp [hx])
    by_cases ha : appAccept e = true <;>
      simp [readAppBatch, he, ha, ih _ hrest, appEntries, List.filterMap_cons,
        List.append_assoc]

/-- The first event strictly older than the threshold stops the batch:
entries accepted before it are kept, it and everything after it are
dropped, and the past-threshold flag is set. -/
theorem readAppBatch_stop (t : Int) (rOld : RawEvent) (hOld : rOld.time < t) :
    ∀ (pre post : List RawEvent) (logs : List LogEntry),
      (∀ e ∈ pre, ¬ e.time < t) →
      readAppBatch t (pre ++ rOld :: post) logs = (logs ++ appEntries pre, true) := by
  intro pre
  induction pre with
  | nil => intro post logs _; simp [readAppBatch, hOld, appEntries]
  | cons e rest ih =>
    intro post logs hall
    have he : ¬ e.time < t := hall e (by simp)
    have hrest : ∀ x ∈ rest, ¬ x.time < t := fun x hx => hall x (by simp [hx])
    by_cases ha : appAccept e = true <;>
      simp [readAppBatch, he, ha, ih post _ hrest, appEntries, List.filterMap_cons,
        List.append_assoc]

/-- Claim C4 (confirmed): the backward-read time cutoff is inclusive at
the boundary and terminating strictly past it.  (1) In the targeted read,
the first record strictly older than the cutoff is dropped and ends the
whole read; the records accepted before it are returned, in order.
(2) A record timestamped exactly at the cutoff is not excluded by the
time check: it is processed normally and, passing the severity/ID
filters, is included.  (3) The general sweep's batch loop likewise drops
a strictly-older record and everything after it. -/
theorem c4_time_cutoff_boundary :
    (∀ (t : Int) (pre post : List RawEvent) (rOld : RawEvent)
        (bs : List (List RawEvent)),
      (∀ e ∈ pre, ¬ e.time < t) → rOld.time < t →
      read_application_logs t ((pre ++ rOld :: post) :: bs) = appEntries pre)
    ∧ (∀ (t : Int) (pre : List RawEvent) (r : RawEvent),
      (∀ e ∈ pre, ¬ e.time < t) → r.time = t → appAccept r = true →
      read_application_logs t [pre ++ [r]] = appEntries pre ++ [mkLogEntry r])
    ∧ (∀ (t : Int) (c : GenSearch) (logName : String) (pre post : List RawEvent)
        (rOld : RawEvent) (logs : List GenEntry), rOld.time < t →
      (readGenBatch t c logName (pre ++ rOld :: post) logs).1
        = (readGenBatch t c logName pre logs).1) := by
  refine ⟨?_, ?_, ?_⟩
  · intro t pre post rOld bs hall hOld
    have hne : pre ++ rOld :: post ≠ [] := by simp
    simp [read_application_logs, readAppLoop, hne,
      readAppBatch_stop t rOld hOld pre post [] hall]
  · intro t pre r hall ht hacc
    have hfresh : ∀ e ∈ pre ++ [r], ¬ e.time < t := by
      intro e he
      rcases List.mem_append.mp he with h | h
      · exact hall e h
      · simp at h
        subst h
        rw [ht]
        exact lt_irrefl t
    have hne : pre ++ [r] ≠ [] := by simp
    simp [read_application_logs, readAppLoop, hne, readAppBatch_fresh t _ [] hfresh,
      appEntries, List.filterMap_append, hacc]
  · intro t c logName pre post rOld logs hOld
    induction pre generalizing logs with
    | nil =>
      by_cases hc : max_results ≤ logs.length <;>
        simp [readGenBatch, hc, hOld]
    | cons e rest ih =>
      by_cases hc : max_results ≤ logs.length
      · simp [readGenBatch, hc]
      · by_cases he : e.time < t
        · simp [readGenBatch, hc, he]
        · by_cases htype : e.eventType ≠ EVENTLOG_ERROR_TYPE
          · simp only [List.cons_append, readGenBatch, if_neg hc, if_neg he,
              if_pos htype]
            exact ih _
          · by_cases hrel : genRelated c e = true <;>
            · simp only [List.cons_append, readGenBatch, if_neg hc, if_neg he,
                if_neg htype, hrel]
              simp only [if_true, if_false, Bool.false_eq_true]
              exact ih _

theorem c4_time_cutoff_boundary_witness :
    read_application_logs 10
        [[⟨11, 1, 1000, "App", ["fresh"], none⟩,
          ⟨9, 1, 1000, "Old", ["dropped"], none⟩,
          ⟨8, 1, 1000, "After", ["dropped"], none⟩],
         [⟨7, 1, 1000, "NextBatch", ["dropped"], none⟩]]
      = appEntries [⟨11, 1, 1000, "App", ["fresh"], none⟩] ∧
    read_application_logs 10
        [[⟨11, 1, 1000, "App", ["fresh"], none⟩,
          ⟨10, 1, 1001, "Boundary", ["at cutoff"], none⟩]]
      = appEntries [⟨11, 1, 1000, "App", ["fresh"], none⟩]
          ++ [mkLogEntry ⟨10, 1, 1001, "Boundary", ["at cutoff"], none⟩] ∧
    (readGenBatch 10 ⟨"mygame", "c:/games/mygame"⟩ "Application"
        [⟨11, 1, 7034, "SCM", ["mygame died"], none⟩,
         ⟨9, 1, 7034, "SCM", ["mygame died"], none⟩,
         ⟨8, 1, 7034, "SCM", ["mygame died"], none⟩] []).1
      = (readGenBatch 10 ⟨"mygame", "c:/games/mygame"⟩ "Application"
          [⟨11, 1, 7034, "SCM", ["mygame died"], none⟩] []).1 :=
  ⟨c4_time_cutoff_boundary.1 10
      [⟨11, 1, 1000, "App", ["fresh"], none⟩]
      [⟨8, 1, 1000, "After", ["dropped"], none⟩]
      ⟨9, 1, 1000, "Old", ["dropped"], none⟩
      [[⟨7, 1, 1000, "NextBatch", ["dropped"], none⟩]]
      (by decide) (by decide),
   c4_time_cutoff_boundary.2.1 10
      [⟨11, 1, 1000, "App", ["fresh"], none⟩]
      ⟨10, 1, 1001, "Boundary", ["at cutoff"], none⟩
      (by decide) (by decide) (by decide),
   c4_time_cutoff_boundary.2.2 10 ⟨"mygame", "c:/games/mygame"⟩ "Application"
      [⟨11, 1, 7034, "SCM", ["mygame died"], none⟩]
      [⟨8, 1, 7034, "SCM", ["mygame died"], none⟩]
      ⟨9, 1, 7034, "SCM", ["mygame died"], none⟩ []
      (by decide)⟩

/-- The sweep's batch loop never grows the accumulator past the quota. -/
theorem readGenBatch_len_le (t : Int) (c : GenSearch) (logName : String) :
    ∀ (es : List RawEvent) (logs : List GenEntry), logs.length ≤ max_results →
      (readGenBatch t c logName es logs).1.length ≤ max_results := by
  intro es
  induction es with
  | nil => intro logs h; simpa [readGenBatch] using h
  | cons e rest ih =>
    intro logs h
    by_cases hc : max_results ≤ logs.length
    · simpa [readGenBatch, hc] using h
    · by_cases he : e.time < t
      · simpa [readGenBatch, hc, he] using h
      · by_cases htype : e.eventType ≠ EVENTLOG_ERROR_TYPE
        · simp only [readGenBatch, if_neg hc, if_neg he, if_pos htype]
          exact ih _ h
        · by_cases hrel : genRelated c e = true
          · simp only [readGenBatch, if_neg hc, if_neg he, if_neg htype, hrel, if_true]
            refine ih _ ?_
            have hlt : logs.length < max_results := Nat.lt_of_not_le hc
            simp only [List.length_append, List.length_singleton]
            omega
          · simp only [readGenBatch, if_neg hc, if_neg he, if_neg htype, hrel,
              Bool.false_eq_true, if_false]
            exact ih _ h

/-- The sweep's channel loop never grows the accumulator past the quota. -/
theorem readGenChannel_len_le (t : Int) (c : GenSearch) (logName : String) :
    ∀ (bs : List (List RawEvent)) (logs : List GenEntry), logs.length ≤ max_results →
      (readGenChannel t c logName bs logs).1.length ≤ max_results := by
  intro bs
  induction bs with
  | nil =>
    intro logs h
    by_cases hc : max_results ≤ logs.length <;> simpa [readGenChannel, hc] using h
  | cons b rest ih =>
    intro logs h
    by_cases hc : max_results ≤ logs.length
    · simpa [readGenChannel, hc] using h
    · by_cases hb : b = []
      · simpa [readGenChannel, hc, hb] using h
      · have hbatch := readGenBatch_len_le t c logName b logs h
        by_cases hr : (readGenBatch t c logName b logs).2 = true <;>
          simp [readGenChannel, hc, hb, hr, hbatch, ih _ hbatch]

/-- One sweep channel never grows the accumulator past the quota. -/
theorem stepChannel_len_le (t : Int) (c : GenSearch) (logName : String)
    (ch : Channel) (logs : List GenEntry) (h : logs.length ≤ max_results) :
    (stepChannel t c logName ch logs).1.length ≤ max_results := by
  cases ch with
  | openRaise e => simpa [stepChannel] using h
  | openNone => simpa [stepChannel] using h
  | okChan batches readEnd =>
    have hch := readGenChannel_len_le t c logName batches logs h
    by_cases hr : (readGenChannel t c logName batches logs).2 = true
    · cases readEnd <;> simp [stepChannel, hr, hch]
    · simp [stepChannel, hr, hch]

/-- The whole sweep never grows the accumulator past the quota. -/
theorem sweepLogs_len_le (t : Int) (c : GenSearch) :
    ∀ (chans : List (String × Channel)) (logs : List GenEntry) (err : Option String),
      logs.length ≤ max_results →
      (sweepLogs t c chans logs err).1.length ≤ max_results := by
  intro chans
  induction chans with
  | nil => intro logs err h; simpa [sweepLogs] using h
  | cons nc rest ih =>
    intro logs err h
    obtain ⟨logName, ch⟩ := nc
    by_cases hc : max_results ≤ logs.length
    · simpa [sweepLogs, hc] using h
    · have hstep := stepChannel_len_le t c logName ch logs h
      by_cases hb : (stepChannel t c logName ch logs).2.2 = true <;>
        simp [sweepLogs, hc, hb, hstep, ih _ _ hstep]

/-- The two-channel sweep is the Application step followed — only when that
step neither broke the sweep — by the System-only sweep seeded with the
Application step's accumulated records and error. -/
theorem read_general_logs_decompose (t : Int) (f r : String) (app sys : Channel) :
    read_general_logs t f r app sys =
      if (stepChannel t (mkGenSearch f r) "Application" app []).2.2 then
        ((stepChannel t (mkGenSearch f r) "Application" app []).1,
         (stepChannel t (mkGenSearch f r) "Application" app []).2.1)
      else
        sweepLogs t (mkGenSearch f r) [("System", sys)]
          (stepChannel t (mkGenSearch f r) "Application" app []).1
          (stepChannel t (mkGenSearch f r) "Application" app []).2.1 := by
  by_cases hb : (stepChannel t (mkGenSearch f r) "Application" app []).2.2 = true <;>
    cases hs : (stepChannel t (mkGenSearch f r) "Application" app []).2.1 <;>
      simp [read_general_logs, sweepLogs, hb, hs, max_results]

/-- Batches whose events are all in-window, Error-severity and related
grow the accumulator by exactly the events up to the remaining quota. -/
theorem readGenBatch_all_accept (t : Int) (c : GenSearch) (logName : String) :
    ∀ (es : List RawEvent),
      (∀ e ∈ es, ¬ e.time < t ∧ e.eventType = EVENTLOG_ERROR_TYPE ∧ genRelated c e = true) →
      ∀ (logs : List GenEntry), logs.length ≤ max_results →
        (readGenBatch t c logName es logs).1
          = logs ++ ((es.take (max_results - logs.length)).map (mkGenEntry logName)) := by
  intro es
  induction es with
  | nil => intro _ logs _; simp [readGenBatch]
  | cons e rest ih =>
    intro hall logs h
    have he := hall e (by simp)
    have hrest : ∀ x ∈ rest, ¬ x.time < t ∧ x.eventType = EVENTLOG_ERROR_TYPE ∧
        genRelated c x = true := fun x hx => hall x (by simp [hx])
    by_cases hc : max_results ≤ logs.length
    · have h0 : max_results - logs.length = 0 := by omega
      simp [readGenBatch, hc, h0]
    · have htype : ¬ e.eventType ≠ EVENTLOG_ERROR_TYPE := fun hne => hne he.2.1
      have htk : max_results - logs.length = (max_results - (logs.length + 1)) + 1 := by
        omega
      simp only [readGenBatch, if_neg hc, if_neg he.1, if_neg htype, he.2.2, if_true]
      rw [ih hrest (logs ++ [mkGenEntry logName e])
        (by simp only [List.length_append, List.length_singleton]; omega)]
      rw [htk, List.take_succ_cons, List.map_cons]
      simp [List.length_append, List.append_assoc]

/-- Claim C5 (confirmed): the fallback sweep (1) returns at most 10
records combined across both channels; (2) once the Application step
alone has filled the 10-record cap, the result does not depend on the
System channel at all (System is never read); (3) acceptance stops the
moment the cap is reached even mid-batch — a batch of acceptable records
contributes exactly the first `10 - already-accepted` of them; and
(4) the sweep is structurally sequential: the Application channel step
runs first and the System channel is processed only afterwards, seeded
with the Application step's output. -/
theorem c5_fallback_sweep_cap :
    (∀ (t : Int) (f r : String) (app sys : Channel),
      (read_general_logs t f r app sys).1.length ≤ 10)
    ∧ (∀ (t : Int) (f r : String) (app sys sys' : Channel),
      (stepChannel t (mkGenSearch f r) "Application" app []).1.length = 10 →
      read_general_logs t f r app sys = read_general_logs t f r app sys')
    ∧ (∀ (t : Int) (c : GenSearch) (logName : String) (es : List RawEvent),
      (∀ e ∈ es, ¬ e.time < t ∧ e.eventType = EVENTLOG_ERROR_TYPE ∧ genRelated c e = true) →
      (readGenBatch t c logName es []).1 = (es.take 10).map (mkGenEntry logName))
    ∧ (∀ (t : Int) (f r : String) (app sys : Channel),
      read_general_logs t f r app sys =
        if (stepChannel t (mkGenSearch f r) "Application" app []).2.2 then
          ((stepChannel t (mkGenSearch f r) "Application" app []).1,
           (stepChannel t (mkGenSearch f r) "Application" app []).2.1)
        else
          sweepLogs t (mkGenSearch f r) [("System", sys)]
            (stepChannel t (mkGenSearch f r) "Application" app []).1
            (stepChannel t (mkGenSearch f r) "Application" app []).2.1) := by
  refine ⟨?_, ?_, ?_, read_general_logs_decompose⟩
  · intro t f r app sys
    have h := sweepLogs_len_le t (mkGenSearch f r)
      [("Application", app), ("System", sys)] [] none (by simp)
    simpa [read_general_logs, max_results] using h
  · intro t f r app sys sys' h10
    rw [read_general_logs_decompose t f r app sys,
      read_general_logs_decompose t f r app sys']
    by_cases hb : (stepChannel t (mkGenSearch f r) "Application" app []).2.2 = true
    · simp [hb]
    · have hcap : max_results ≤
          (stepChannel t (mkGenSearch f r) "Application" app []).1.length := by
        rw [h10]; exact Nat.le.refl
      simp [hb, sweepLogs, hcap]
  · intro t c logName es hall
    have h := readGenBatch_all_accept t c logName es hall [] (by simp)
    simpa [max_results] using h

theorem c5_fallback_sweep_cap_witness :
    read_general_logs 0 "MyGame" ""
        (.okChan [List.replicate 12 ⟨5, 1, 1000, "src", ["mygame crashed"], none⟩] none)
        (.okChan [[⟨4, 1, 41, "Kernel", ["mygame fault"], none⟩]] none)
      = read_general_logs 0 "MyGame" ""
        (.okChan [List.replicate 12 ⟨5, 1, 1000, "src", ["mygame crashed"], none⟩] none)
        .openNone ∧
    (readGenBatch 0 ⟨"mygame", "c:/games/mygame"⟩ "Application"
        [⟨5, 1, 7034, "SCM", ["mygame died"], none⟩,
         ⟨4, 1, 7034, "SCM", ["mygame died"], none⟩] []).1
      = ([⟨5, 1, 7034, "SCM", ["mygame died"], none⟩,
          ⟨4, 1, 7034, "SCM", ["mygame died"], none⟩].take 10).map
          (mkGenEntry "Application") :=
  ⟨c5_fallback_sweep_cap.2.1 0 "MyGame" ""
      (.okChan [List.replicate 12 ⟨5, 1, 1000, "src", ["mygame crashed"], none⟩] none)
      (.okChan [[⟨4, 1, 41, "Kernel", ["mygame fault"], none⟩]] none)
      .openNone (by decide),
   c5_fallback_sweep_cap.2.2.1 0 ⟨"mygame", "c:/games/mygame"⟩ "Application"
      [⟨5, 1, 7034, "SCM", ["mygame died"], none⟩,
       ⟨4, 1, 7034, "SCM", ["mygame died"], none⟩]
      (by decide)⟩

/-- An access-denied failure produces the administrator message and breaks
the sweep. -/
theorem channelFailure_access (logName : String) (e : PyErr)
    (h : isAccessDenied e = true) :
    channelFailure logName e = (accessDeniedMsg, true) := by
  cases e with
  | permission => rfl
  | winErr c m =>
    simp only [isAccessDenied] at h
    simp [channelFailure, h]
  | exc m => simp [isAccessDenied] at h

/-- A failure other than access denial never breaks the sweep. -/
theorem channelFailure_continue (logName : String) (e : PyErr)
    (h : isAccessDenied e = false) :
    (channelFailure logName e).2 = false := by
  cases e <;> simp_all [isAccessDenied, channelFailure]

/-- The sweep's batch loop only appends to the accumulator. -/
theorem readGenBatch_append (t : Int) (c : GenSearch) (logName : String) :
    ∀ (es : List RawEvent) (logs : List GenEntry),
      ∃ s, (readGenBatch t c logName es logs).1 = logs ++ s := by
  intro es
  induction es with
  | nil => intro logs; exact ⟨[], by simp [readGenBatch]⟩
  | cons e rest ih =>
    intro logs
    by_cases hc : max_results ≤ logs.length
    · exact ⟨[], by simp [readGenBatch, hc]⟩
    · by_cases he : e.time < t
      · exact ⟨[], by simp [readGenBatch, hc, he]⟩
      · by_cases htype : e.eventType ≠ EVENTLOG_ERROR_TYPE
        · obtain ⟨s, hs⟩ := ih logs
          exact ⟨s, by
            simp only [readGenBatch, if_neg hc, if_neg he, if_pos htype]
            exact hs⟩
        · by_cases hrel : genRelated c e = true
          · obtain ⟨s, hs⟩ := ih (logs ++ [mkGenEntry logName e])
            refine ⟨mkGenEntry logName e :: s, ?_⟩
            simp only [readGenBatch, if_neg hc, if_neg he, if_neg htype, hrel, if_true]
            simpa [List.append_assoc] using hs
          · obtain ⟨s, hs⟩ := ih logs
            refine ⟨s, ?_⟩
            simp only [readGenBatch, if_neg hc, if_neg he, if_neg htype, hrel,
              Bool.false_eq_true, if_false]
            exact hs

/-- The sweep's channel loop only appends to the accumulator. -/
theorem readGenChannel_append (t : Int) (c : GenSearch) (logName : String) :
    ∀ (bs : List (List RawEvent)) (logs : List GenEntry),
      ∃ s, (readGenChannel t c logName bs logs).1 = logs ++ s := by
  intro bs
  induction bs with
  | nil =>
    intro logs
    by_cases hc : max_results ≤ logs.length <;>
      exact ⟨[], by simp [readGenChannel, hc]⟩
  | cons b rest ih =>
    intro logs
    by_cases hc : max_results ≤ logs.length
    · exact ⟨[], by simp [readGenChannel, hc]⟩
    · by_cases hb : b = []
      · exact ⟨[], by simp [readGenChannel, hc, hb]⟩
      · obtain ⟨s1, hs1⟩ := readGenBatch_append t c logName b logs
        by_cases hr : (readGenBatch t c logName b logs).2 = true
        · exact ⟨s1, by simp [readGenChannel, hc, hb, hr, hs1]⟩
        · obtain ⟨s2, hs2⟩ := ih (readGenBatch t c logName b logs).1
          refine ⟨s1 ++ s2, ?_⟩
          simp only [readGenChannel, if_neg hc, if_neg hb, hr, Bool.false_eq_true,
            if_false]
          rw [hs2, hs1, List.append_assoc]

/-- One sweep channel only appends to the accumulator. -/
theorem stepChannel_append (t : Int) (c : GenSearch) (logName : String)
    (ch : Channel) (logs : List GenEntry) :
    ∃ s, (stepChannel t c logName ch logs).1 = logs ++ s := by
  cases ch with
  | openRaise e => exact ⟨[], by simp [stepChannel]⟩
  | openNone => exact ⟨[], by simp [stepChannel]⟩
  | okChan batches readEnd =>
    obtain ⟨s, hs⟩ := readGenChannel_append t c logName batches logs
    by_cases hr : (readGenChannel t c logName batches logs).2 = true
    · cases readEnd <;> exact ⟨s, by simp [stepChannel, hr, hs]⟩
    · exact ⟨s, by simp [stepChannel, hr, hs]⟩

/-- The whole sweep only appends to the accumulator. -/
theorem sweepLogs_append (t : Int) (c : GenSearch) :
    ∀ (chans : List (String × Channel)) (logs : List GenEntry) (err : Option String),
      ∃ s, (sweepLogs t c chans logs err).1 = logs ++ s := by
  intro chans
  induction chans with
  | nil => intro logs err; exact ⟨[], by simp [sweepLogs]⟩
  | cons nc rest ih =>
    intro logs err
    obtain ⟨logName, ch⟩ := nc
    by_cases hc : max_results ≤ logs.length
    · exact ⟨[], by simp [sweepLogs, hc]⟩
    · obtain ⟨s1, hs1⟩ := stepChannel_append t c logName ch logs
      by_cases hb : (stepChannel t c logName ch logs).2.2 = true
      · exact ⟨s1, by simp [sweepLogs, hc, hb, hs1]⟩
      · obtain ⟨s2, hs2⟩ := ih (stepChannel t c logName ch logs).1
          (match (stepChannel t c logName ch logs).2.1 with
            | some m => some m | none => err)
        refine ⟨s1 ++ s2, ?_⟩
        simp only [sweepLogs, if_neg hc, hb, Bool.false_eq_true, if_false]
        rw [hs2, hs1, List.append_assoc]

/-- Claim C6 (confirmed): in the fallback sweep, (1) an access-denied
failure opening the Application channel ends the whole sweep at once with
the administrator message and no records — the System channel is never
consulted (it does not appear in the result); (2) an access-denied
failure raised after reading stops the sweep with the records accepted so
far alongside the message; (3) any other open failure is fatal only to
that channel: the sweep continues with the System channel, the error
recorded; (4) any other read failure likewise: the records accepted
before the failure seed the System pass, the error recorded; and (5) the
sweep only ever appends, so records accepted before a failure are
retained in the final result. -/
theorem c6_sweep_failure_handling :
    (∀ (t : Int) (f r : String) (e : PyErr) (sys : Channel),
      isAccessDenied e = true →
      read_general_logs t f r (.openRaise e) sys = ([], some accessDeniedMsg))
    ∧ (∀ (t : Int) (f r : String) (batches : List (List RawEvent)) (e : PyErr)
        (sys : Channel),
      isAccessDenied e = true →
      (readGenChannel t (mkGenSearch f r) "Application" batches []).2 = true →
      read_general_logs t f r (.okChan batches (some e)) sys
        = ((readGenChannel t (mkGenSearch f r) "Application" batches []).1,
           some accessDeniedMsg))
    ∧ (∀ (t : Int) (f r : String) (e : PyErr) (sys : Channel),
      isAccessDenied e = false →
      read_general_logs t f r (.openRaise e) sys
        = sweepLogs t (mkGenSearch f r) [("System", sys)] []
            (some (channelFailure "Application" e).1))
    ∧ (∀ (t : Int) (f r : String) (batches : List (List RawEvent)) (e : PyErr)
        (sys : Channel),
      isAccessDenied e = false →
      (readGenChannel t (mkGenSearch f r) "Application" batches []).2 = true →
      read_general_logs t f r (.okChan batches (some e)) sys
        = sweepLogs t (mkGenSearch f r) [("System", sys)]
            (readGenChannel t (mkGenSearch f r) "Application" batches []).1
            (some (channelFailure "Application" e).1))
    ∧ (∀ (t : Int) (c : GenSearch) (chans : List (String × Channel))
        (logs : List GenEntry) (err : Option String),
      ∃ s, (sweepLogs t c chans logs err).1 = logs ++ s) := by
  refine ⟨?_, ?_, ?_, ?_, fun t c => sweepLogs_append t c⟩
  · intro t f r e sys h
    simp [read_general_logs, sweepLogs, stepChannel, max_results,
      channelFailure_access "Application" e h]
  · intro t f r batches e sys h hhungry
    simp [read_general_logs, sweepLogs, stepChannel, max_results, hhungry,
      channelFailure_access "Application" e h]
  · intro t f r e sys h
    have hbrk := channelFailure_continue "Application" e h
    simp only [read_general_logs, sweepLogs, stepChannel]
    rw [if_neg (by simp [max_results] : ¬ max_results ≤ ([] : List GenEntry).length)]
    simp [hbrk]
  · intro t f r batches e sys h hhungry
    have hbrk := channelFailure_continue "Application" e h
    simp only [read_general_logs, sweepLogs, stepChannel]
    rw [if_neg (by simp [max_results] : ¬ max_results ≤ ([] : List GenEntry).length)]
    simp [hhungry, hbrk]

theorem c6_sweep_failure_handling_witness :
    read_general_logs 0 "MyGame" "" (.openRaise .permission) .openNone
      = ([], some accessDeniedMsg) ∧
    read_general_logs 0 "MyGame" "" (.openRaise (.exc "boom")) .openNone
      = sweepLogs 0 (mkGenSearch "MyGame" "") [("System", Channel.openNone)] []
          (some (channelFailure "Application" (.exc "boom")).1) ∧
    read_general_logs 0 "MyGame" ""
        (.okChan [[⟨5, 1, 7034, "SCM", ["mygame died"], none⟩]] (some (.winErr 5 "denied")))
        .openNone
      = ((readGenChannel 0 (mkGenSearch "MyGame" "") "Application"
            [[⟨5, 1, 7034, "SCM", ["mygame died"], none⟩]] []).1,
         some accessDeniedMsg) :=
  ⟨c6_sweep_failure_handling.1 0 "MyGame" "" .permission .openNone rfl,
   c6_sweep_failure_handling.2.2.1 0 "MyGame" "" (.exc "boom") .openNone rfl,
   c6_sweep_failure_handling.2.1 0 "MyGame" ""
     [[⟨5, 1, 7034, "SCM", ["mygame died"], none⟩]] (.winErr 5 "denied") .openNone
     (by decide) (by decide)⟩
